import Mathlib

/-!
Verification development for the OmniVapor dome projection system
(`BuildingMap/OmniMapIntegration/include/DomeProjectionSystem.h`).

The repository ships only the interface header: every operation is declared
there but its body is absent.  Following the specification (`spec.md`), each
operation is modelled here as a pure Lean function over explicit state, with
machine doubles modelled as exact rationals (plus explicit NaN/infinity
markers where the specification talks about them).  All definitions carry a
comment saying which declaration of the header they embed and which part of
the specification supplies the missing body.
-/

namespace DomeProjection

/-- Coordinate system for dome projection (header lines 18-22).  Fields are
raw rationals; the data-model invariant of spec section 3 is established by the
smart constructor `mkDomeCoordinates` below. -/
structure DomeCoordinates where
  azimuth : ℚ
  elevation : ℚ
  distance : ℚ
deriving DecidableEq, Repr

/-- Normalize an angle into the interval [0, 360), modulo 360. -/
def normAz (a : ℚ) : ℚ := a - 360 * ⌊a / 360⌋

/-- Clamp a rational into the closed interval [lo, hi]. -/
def clampQ (lo hi x : ℚ) : ℚ := max lo (min hi x)

/-- Modelled from the spec: the header declares no constructor body for
`DomeCoordinates`; spec section 3 states "azimuth is normalized modulo 360;
elevation and distance are clamped to range on construction". -/
def mkDomeCoordinates (a e d : ℚ) : DomeCoordinates :=
  ⟨normAz a, clampQ (-90) 90 e, clampQ 0 1 d⟩

/-- The data-model invariant of spec section 3 for `DomeCoordinate`:
azimuth in [0,360), elevation in [-90,90], distance in [0,1]. -/
def domeValid (c : DomeCoordinates) : Prop :=
  0 ≤ c.azimuth ∧ c.azimuth < 360 ∧
  -90 ≤ c.elevation ∧ c.elevation ≤ 90 ∧
  0 ≤ c.distance ∧ c.distance ≤ 1

instance (c : DomeCoordinates) : Decidable (domeValid c) := by
  unfold domeValid; infer_instance

/-- Equirectangular image metadata (header lines 25-31). -/
structure EquirectangularMetadata where
  width : ℤ
  height : ℤ
  fieldOfView : ℚ
  projection : String
  optimizedForDome : Bool
deriving DecidableEq, Repr

/-- Fisheye sub-settings (header lines 39-44). -/
structure FisheyeSettings where
  enabled : Bool
  strength : ℚ
  centerX : ℚ
  centerY : ℚ
deriving DecidableEq, Repr

/-- Per-channel resolution (header lines 55-58). -/
structure Resolution where
  width : ℤ
  height : ℤ
deriving DecidableEq, Repr

/-- Per-channel blend region (header lines 60-62). -/
structure BlendRegion where
  left : ℚ
  right : ℚ
  top : ℚ
  bottom : ℚ
deriving DecidableEq, Repr

/-- Individual dome channel configuration (header lines 50-63). -/
structure DomeChannel where
  id : String
  name : String
  position : DomeCoordinates
  resolution : Resolution
  blendRegion : BlendRegion
deriving DecidableEq, Repr

/-- Dome projection settings (header lines 34-47). -/
structure DomeProjectionSettings where
  domeRadius : ℚ
  projectorCount : ℤ
  blendOverlap : ℚ
  fisheye : FisheyeSettings
  channels : List DomeChannel
deriving DecidableEq, Repr

/-- View modes of the navigation state (header line 76,
`DomeNavigationState::ViewMode`). -/
inductive ViewMode where
  | MAP
  | PROJECT
  | TOUR
  | PRESENTATION
deriving DecidableEq, Repr

/-- Navigation state (header lines 74-80). -/
structure DomeNavigationState where
  currentProject : String
  viewMode : ViewMode
  isImmersive : Bool
  selectedRegion : String
  zoomLevel : ℚ
deriving DecidableEq, Repr

/-- Error kinds (header lines 164-173). -/
inductive DomeError where
  | NONE
  | INITIALIZATION_FAILED
  | OMNIMAP_ERROR
  | WEBVIEW_ERROR
  | INTERACTION_ERROR
  | RENDERING_ERROR
  | INVALID_COORDINATES
  | INVALID_METADATA
deriving DecidableEq, Repr

/-- Observable state of a `DomeProjectionSystem` object (header lines
126-135): the initialized flag, the active settings, the navigation state,
and one handle flag per external collaborator of spec section 2 (render
back end, web content host, input subsystem). -/
structure SysState where
  initialized : Bool
  projectionSettings : DomeProjectionSettings
  navigationState : DomeNavigationState
  renderHandle : Bool
  hostHandle : Bool
  inputHandle : Bool
deriving DecidableEq, Repr

/-- Environment of collaborator constructions: whether each of the three
external collaborators of spec section 2 constructs successfully when asked.
The header only forward-declares the collaborator classes, so their
construction outcome is an external input. -/
structure CollabEnv where
  renderOk : Bool
  hostOk : Bool
  inputOk : Bool
deriving DecidableEq, Repr

/-! ## Settings validation (spec section 4.6) -/

/-- All ids in the list are pairwise distinct. -/
def idsUnique : List String → Bool
  | [] => true
  | x :: xs => !xs.contains x && idsUnique xs

/-- Numeric-range checks of spec section 3 for one channel: positive
resolution, blend-region components in [0,1] with left < right and
top < bottom, and a position satisfying the `DomeCoordinate` invariant. -/
def channelValid (c : DomeChannel) : Bool :=
  (0 < c.resolution.width) && (0 < c.resolution.height) &&
  (0 ≤ c.blendRegion.left) && (c.blendRegion.right ≤ 1) &&
  (0 ≤ c.blendRegion.top) && (c.blendRegion.bottom ≤ 1) &&
  (c.blendRegion.left < c.blendRegion.right) &&
  (c.blendRegion.top < c.blendRegion.bottom) &&
  decide (domeValid c.position)

/-- Numeric-range checks of spec section 3 on the settings record itself:
positive dome radius, blend overlap in [0,1], fisheye strength in [0,1] and
fisheye center in the unit square. -/
def rangesValid (st : DomeProjectionSettings) : Bool :=
  (0 < st.domeRadius) && (0 ≤ st.blendOverlap) && (st.blendOverlap ≤ 1) &&
  (0 ≤ st.fisheye.strength) && (st.fisheye.strength ≤ 1) &&
  (0 ≤ st.fisheye.centerX) && (st.fisheye.centerX ≤ 1) &&
  (0 ≤ st.fisheye.centerY) && (st.fisheye.centerY ≤ 1) &&
  st.channels.all channelValid

/-- Modelled from the spec: angular field of view of a channel in degrees,
"resolution-derived" given the dome radius (spec section 4.6); the header
gives no formula, so the width-to-radius ratio capped at a full circle is
used. -/
def fovDeg (st : DomeProjectionSettings) (c : DomeChannel) : ℚ :=
  min 360 ((c.resolution.width : ℚ) / st.domeRadius)

/-- Circular distance between two azimuths, in degrees (in [0,180]). -/
def circDist (a b : ℚ) : ℚ :=
  let d := normAz (a - b)
  min d (360 - d)

/-- Modelled from the spec: "computed angular coverage of all channels ...
covers the full sphere without gaps wider than `blendOverlap`" (spec section
4.6).  The header gives no body; coverage is checked at one-degree azimuth
samples: each sample must lie within some channel's half field of view,
extended by the blend-overlap fraction of the half circle. -/
def coverageOk (st : DomeProjectionSettings) : Bool :=
  (List.range 360).all fun d =>
    st.channels.any fun c =>
      circDist (d : ℚ) c.position.azimuth ≤ fovDeg st c / 2 + st.blendOverlap * 180

/-- Modelled from the spec: validation of `setProjectionSettings` (spec
section 4.6): non-empty channels, unique channel ids, all numeric ranges of
spec section 3, full angular coverage.  The header declares
`SetProjectionSettings` (line 99) without a body. -/
def validateSettings (st : DomeProjectionSettings) : Bool :=
  !st.channels.isEmpty &&
  idsUnique (st.channels.map (fun c => c.id)) &&
  rangesValid st &&
  coverageOk st

/-! ## Orchestrator operations (spec sections 4.3, 4.6) -/

/-- Modelled from the spec: `Initialize` (header line 89, body absent).
Spec section 4.3: validates settings and transitions
Uninitialized to Initialized, constructing the three collaborators; fails
with `InitializationFailed` and remains Uninitialized on any collaborator
construction failure (all-or-nothing). -/
def Initialize (env : CollabEnv) (settings : DomeProjectionSettings)
    (s : SysState) : DomeError × SysState :=
  if s.initialized then (.INITIALIZATION_FAILED, s)
  else if !validateSettings settings then (.INITIALIZATION_FAILED, s)
  else if env.renderOk && env.hostOk && env.inputOk then
    (.NONE, { s with initialized := true, projectionSettings := settings,
                     renderHandle := true, hostHandle := true,
                     inputHandle := true })
  else (.INITIALIZATION_FAILED, s)

/-- Modelled from the spec: `Shutdown` (header line 90, body absent).  Spec
section 4.3: idempotent, transitions any state to Uninitialized after
releasing the collaborators. -/
def Shutdown (s : SysState) : DomeError × SysState :=
  (.NONE, { s with initialized := false, renderHandle := false,
                   hostHandle := false, inputHandle := false })

/-- `IsInitialized` (header line 91; its body `return m_initialized` is in
the header). -/
def IsInitialized (s : SysState) : Bool := s.initialized

/-- `GetProjectionSettings` (header line 124; body in the header). -/
def GetProjectionSettings (s : SysState) : DomeProjectionSettings :=
  s.projectionSettings

/-- `GetNavigationState` (header line 123; body in the header). -/
def GetNavigationState (s : SysState) : DomeNavigationState :=
  s.navigationState

/-- Modelled from the spec: `SetProjectionSettings` (header line 99, body
absent).  Spec section 4.6: validation is pure and side-effect-free; only on
success does it replace the active settings atomically. -/
def SetProjectionSettings (settings : DomeProjectionSettings)
    (s : SysState) : DomeError × SysState :=
  if validateSettings settings then
    (.NONE, { s with projectionSettings := settings })
  else (.INVALID_METADATA, s)

/-! ## Navigation state machine (spec section 4.4) -/

/-- Modelled from the spec: `NavigateToProject` (header line 109, body
absent).  Spec section 4.4: valid from any state; sets `currentProject=id`,
`viewMode=project`, does not change immersion. -/
def NavigateToProject (projectId : String) (s : SysState) :
    DomeError × SysState :=
  (.NONE, { s with navigationState :=
    { s.navigationState with currentProject := projectId,
                             viewMode := .PROJECT } })

/-- Modelled from the spec: `SetViewMode` (header line 110, body absent).
Spec section 4.4: valid from any non-immersive state; immersive states only
accept `presentation`. -/
def SetViewMode (mode : ViewMode) (s : SysState) : DomeError × SysState :=
  if !s.navigationState.isImmersive || mode = .PRESENTATION then
    (.NONE, { s with navigationState :=
      { s.navigationState with viewMode := mode } })
  else (.INTERACTION_ERROR, s)

/-- Modelled from the spec: `EnterImmersiveMode` (header line 111, body
absent).  Spec section 4.4: requires `currentProject` resolvable (non-empty
id); sets `isImmersive=true`, `viewMode=presentation`; fails with
`InteractionError` if no project is selected and none supplied. -/
def EnterImmersiveMode (projectId : String) (s : SysState) :
    DomeError × SysState :=
  let effective := if projectId = "" then s.navigationState.currentProject
                   else projectId
  if effective = "" then (.INTERACTION_ERROR, s)
  else
    (.NONE, { s with navigationState :=
      { s.navigationState with currentProject := effective,
                               viewMode := .PRESENTATION,
                               isImmersive := true } })

/-- Modelled from the spec: `ExitImmersiveMode` (header line 112, body
absent).  Spec section 4.4: valid only when `isImmersive=true`; restores
`viewMode=project`, `isImmersive=false`; rejected with `InteractionError`
otherwise (spec section 8). -/
def ExitImmersiveMode (s : SysState) : DomeError × SysState :=
  if s.navigationState.isImmersive then
    (.NONE, { s with navigationState :=
      { s.navigationState with viewMode := .PROJECT,
                               isImmersive := false } })
  else (.INTERACTION_ERROR, s)

/-! ## Coordinate transforms (spec section 4.1) -/

/-- Modelled from the spec: a C++ `double` argument, as far as spec section
4.1 observes it: either NaN, an infinity, or a finite value (modelled
exactly as a rational). -/
inductive DVal where
  | nan
  | posInf
  | negInf
  | fin (x : ℚ)
deriving DecidableEq, Repr

/-- Whether a modelled double value is finite. -/
def DVal.isFinite : DVal → Bool
  | .fin _ => true
  | _ => false

/-- The rational value of a finite modelled double (0 for NaN/infinite). -/
def DVal.val : DVal → ℚ
  | .fin x => x
  | _ => 0

/-- Domain check of spec section 4.1: both inputs finite, latitude in
[-90, 90], longitude in [-180, 180]. -/
def geoValid (lat lng : DVal) : Bool :=
  lat.isFinite && lng.isFinite &&
  (-90 ≤ lat.val) && (lat.val ≤ 90) && (-180 ≤ lng.val) && (lng.val ≤ 180)

/-- Modelled from the spec: `GeographicToDome` (header line 119, body
absent).  Spec section 4.1: maps latitude to elevation and longitude to
azimuth (normalized mod 360), at the poles azimuth is 0 by convention, the
point lies on the dome surface (distance 1); fails with
`InvalidCoordinates` when inputs are outside domain or NaN/infinite. -/
def GeographicToDome (lat lng : DVal) :
    Except DomeError DomeCoordinates :=
  if geoValid lat lng then
    .ok (mkDomeCoordinates
      (if lat.val = 90 ∨ lat.val = -90 then 0 else lng.val) lat.val 1)
  else .error .INVALID_COORDINATES

/-- Modelled from the spec: `DomeToGeographic` (header line 120, body
absent).  Spec section 4.1: the inverse of `GeographicToDome`; elevation
maps back to latitude and azimuth back to a longitude in (-180, 180]. -/
def DomeToGeographic (c : DomeCoordinates) : ℚ × ℚ :=
  (c.elevation, if c.azimuth ≤ 180 then c.azimuth else c.azimuth - 360)

/-! ## String serialization (header lines 158-161, spec section 6)

The header declares `DomeCoordinatesToJson` / `DomeCoordinatesFromJson` /
`EquirectangularMetadataToJson` / `EquirectangularMetadataFromJson` without
bodies.  Spec section 6 fixes their contract: a string encoding using the
field names of spec section 3, `fromJson(toJson(x)) == x` for all valid
`x`, malformed input fails with `InvalidCoordinates`/`InvalidMetadata`.
Numbers are encoded exactly as `num/den` integer fractions, which is the
exact-rational counterpart of the decimal number grammar. -/

/-- Whether a character is a decimal digit. -/
def isDig (c : Char) : Bool := 48 ≤ c.toNat && c.toNat ≤ 57

/-- The decimal digit character for `d % 10`. -/
def digChar (d : ℕ) : Char := Char.ofNat (48 + d % 10)

/-- The numeric value of a digit character. -/
def charVal (c : Char) : ℕ := c.toNat - 48

/-- Decimal rendering of a natural number, most significant digit first. -/
def natToChars (n : ℕ) : List Char :=
  if n = 0 then ['0'] else ((Nat.digits 10 n).map digChar).reverse

/-- Value of a most-significant-first digit string. -/
def charsToNat (l : List Char) : ℕ :=
  Nat.ofDigits 10 ((l.map charVal).reverse)

/-- Decimal rendering of an integer with an optional leading minus sign. -/
def intToChars (i : ℤ) : List Char :=
  (if i < 0 then ['-'] else []) ++ natToChars i.natAbs

/-- Exact rendering of a rational as `numerator/denominator`. -/
def ratToChars (q : ℚ) : List Char :=
  intToChars q.num ++ '/' :: natToChars q.den

/-- Split a leading minus sign off a character stream. -/
def splitSign : List Char → Bool × List Char
  | [] => (false, [])
  | c :: rest => if c = '-' then (true, rest) else (false, c :: rest)

/-- Read a nonempty run of digits as a natural number. -/
def readNat (s : List Char) : Option (ℕ × List Char) :=
  let ds := s.takeWhile isDig
  if ds.isEmpty then none
  else some (charsToNat ds, s.dropWhile isDig)

/-- Read an optionally signed integer. -/
def readInt (s : List Char) : Option (ℤ × List Char) :=
  let p := splitSign s
  match readNat p.2 with
  | none => none
  | some (n, rest) => some (if p.1 then -(n : ℤ) else (n : ℤ), rest)

/-- Strip an expected literal prefix from a character stream. -/
def stripLit : List Char → List Char → Option (List Char)
  | [], s => some s
  | c :: cs, d :: ds => if c = d then stripLit cs ds else none
  | _ :: _, [] => none

/-- Read a rational written as `numerator/denominator`. -/
def readRat (s : List Char) : Option (ℚ × List Char) :=
  match readInt s with
  | none => none
  | some (n, s1) =>
    match stripLit ['/'] s1 with
    | none => none
    | some s2 =>
      match readNat s2 with
      | none => none
      | some (d, rest) =>
        if d = 0 then none else some ((n : ℚ) / (d : ℚ), rest)

/-- Literal `{"azimuth":`. -/
def litAz : List Char :=
  ['\x7b', '"', 'a', 'z', 'i', 'm', 'u', 't', 'h', '"', ':']

/-- Literal `,"elevation":`. -/
def litElev : List Char :=
  [',', '"', 'e', 'l', 'e', 'v', 'a', 't', 'i', 'o', 'n', '"', ':']

/-- Literal `,"distance":`. -/
def litDist : List Char :=
  [',', '"', 'd', 'i', 's', 't', 'a', 'n', 'c', 'e', '"', ':']

/-- Literal closing brace. -/
def litClose : List Char := ['\x7d']

/-- Literal `{"width":`. -/
def litW : List Char := ['\x7b', '"', 'w', 'i', 'd', 't', 'h', '"', ':']

/-- Literal `,"height":`. -/
def litH : List Char := [',', '"', 'h', 'e', 'i', 'g', 'h', 't', '"', ':']

/-- Literal `,"fieldOfView":`. -/
def litFov : List Char :=
  [',', '"', 'f', 'i', 'e', 'l', 'd', 'O', 'f', 'V', 'i', 'e', 'w', '"', ':']

/-- Literal `,"projection":"`. -/
def litProj : List Char :=
  [',', '"', 'p', 'r', 'o', 'j', 'e', 'c', 't', 'i', 'o', 'n', '"', ':', '"']

/-- Literal `","optimizedForDome":`. -/
def litOpt : List Char :=
  ['"', ',', '"', 'o', 'p', 't', 'i', 'm', 'i', 'z', 'e', 'd', 'F', 'o',
   'r', 'D', 'o', 'm', 'e', '"', ':']

/-- Literal `true`. -/
def litTrue : List Char := ['t', 'r', 'u', 'e']

/-- Literal `false`. -/
def litFalse : List Char := ['f', 'a', 'l', 's', 'e']

/-- Rendering of a boolean. -/
def boolChars (b : Bool) : List Char := if b then litTrue else litFalse

/-- Read a boolean literal. -/
def readBool (s : List Char) : Option (Bool × List Char) :=
  match stripLit litTrue s with
  | some rest => some (true, rest)
  | none =>
    match stripLit litFalse s with
    | some rest => some (false, rest)
    | none => none

/-- Whether a character is not a double quote. -/
def notQuote (c : Char) : Bool := !(c = '"')

/-- Read a quoted-string body up to the closing quote. -/
def readStr (s : List Char) : String × List Char :=
  (String.mk (s.takeWhile notQuote), s.dropWhile notQuote)

/-- Character stream of the encoding of a `DomeCoordinates` value. -/
def jsonCoordChars (c : DomeCoordinates) : List Char :=
  litAz ++ ratToChars c.azimuth ++
  litElev ++ ratToChars c.elevation ++
  litDist ++ ratToChars c.distance ++ litClose

/-- Modelled from the spec: `DomeCoordinatesToJson` (header line 158, body
absent); encodes the three fields under their spec section 3 names. -/
def DomeCoordinatesToJson (c : DomeCoordinates) : String :=
  String.mk (jsonCoordChars c)

/-- Parse the encoding of a `DomeCoordinates` value, returning the raw
field values and the unconsumed remainder. -/
def parseCoord (s : List Char) : Option ((ℚ × ℚ × ℚ) × List Char) :=
  match stripLit litAz s with
  | none => none
  | some s1 =>
    match readRat s1 with
    | none => none
    | some (a, s2) =>
      match stripLit litElev s2 with
      | none => none
      | some s3 =>
        match readRat s3 with
        | none => none
        | some (e, s4) =>
          match stripLit litDist s4 with
          | none => none
          | some s5 =>
            match readRat s5 with
            | none => none
            | some (d, s6) =>
              match stripLit litClose s6 with
              | none => none
              | some s7 => some ((a, e, d), s7)

/-- Modelled from the spec: `DomeCoordinatesFromJson` (header line 159,
body absent); parses the full string or fails with `InvalidCoordinates`,
never returning a partially parsed value; the resulting coordinates go
through the normalizing constructor. -/
def DomeCoordinatesFromJson (s : String) :
    Except DomeError DomeCoordinates :=
  match parseCoord s.data with
  | some ((a, e, d), []) => .ok (mkDomeCoordinates a e d)
  | _ => .error .INVALID_COORDINATES

/-- Character stream of the encoding of an `EquirectangularMetadata`
value. -/
def jsonMetaChars (m : EquirectangularMetadata) : List Char :=
  litW ++ intToChars m.width ++
  litH ++ intToChars m.height ++
  litFov ++ ratToChars m.fieldOfView ++
  litProj ++ m.projection.data ++
  litOpt ++ boolChars m.optimizedForDome ++ litClose

/-- Modelled from the spec: `EquirectangularMetadataToJson` (header line
160, body absent); encodes the five fields under their spec section 3
names. -/
def EquirectangularMetadataToJson (m : EquirectangularMetadata) : String :=
  String.mk (jsonMetaChars m)

/-- Parse the encoding of an `EquirectangularMetadata` value. -/
def parseMeta (s : List Char) :
    Option (EquirectangularMetadata × List Char) :=
  match stripLit litW s with
  | none => none
  | some s1 =>
    match readInt s1 with
    | none => none
    | some (w, s2) =>
      match stripLit litH s2 with
      | none => none
      | some s3 =>
        match readInt s3 with
        | none => none
        | some (h, s4) =>
          match stripLit litFov s4 with
          | none => none
          | some s5 =>
            match readRat s5 with
            | none => none
            | some (fov, s6) =>
              match stripLit litProj s6 with
              | none => none
              | some s7 =>
                match readStr s7 with
                | (proj, s8) =>
                  match stripLit litOpt s8 with
                  | none => none
                  | some s9 =>
                    match readBool s9 with
                    | none => none
                    | some (b, s10) =>
                      match stripLit litClose s10 with
                      | none => none
                      | some s11 => some (⟨w, h, fov, proj, b⟩, s11)

/-- Modelled from the spec: `EquirectangularMetadataFromJson` (header line
161, body absent); parses the full string or fails with `InvalidMetadata`,
never returning a partially parsed value. -/
def EquirectangularMetadataFromJson (s : String) :
    Except DomeError EquirectangularMetadata :=
  match parseMeta s.data with
  | some (m, []) => .ok m
  | _ => .error .INVALID_METADATA

/-- Validity of an `EquirectangularMetadata` value per spec section 3:
positive dimensions, field of view in (0, 360], and one of the three
recognized projection kinds. -/
def metaValid (m : EquirectangularMetadata) : Prop :=
  0 < m.width ∧ 0 < m.height ∧
  0 < m.fieldOfView ∧ m.fieldOfView ≤ 360 ∧
  (m.projection = "equirectangular" ∨ m.projection = "cylindrical" ∨
   m.projection = "spherical")

instance (m : EquirectangularMetadata) : Decidable (metaValid m) := by
  unfold metaValid; infer_instance

/-! ## Concrete sample values used by the witness theorems -/

/-- A single full-circle channel. -/
def demoChannel : DomeChannel :=
  { id := "c0", name := "main", position := ⟨0, 0, 1⟩,
    resolution := ⟨360, 100⟩, blendRegion := ⟨0, 1, 0, 1⟩ }

/-- Settings with one full-circle channel; they pass validation. -/
def demoSettings : DomeProjectionSettings :=
  { domeRadius := 1, projectorCount := 1, blendOverlap := 0,
    fisheye := ⟨false, 0, 1/2, 1/2⟩, channels := [demoChannel] }

/-- Settings with no channels; they fail validation. -/
def badSettings : DomeProjectionSettings :=
  { domeRadius := 1, projectorCount := 0, blendOverlap := 0,
    fisheye := ⟨false, 0, 1/2, 1/2⟩, channels := [] }

/-- A fresh, non-immersive navigation state. -/
def demoNav : DomeNavigationState := ⟨"", .MAP, false, "", 1⟩

/-- An uninitialized system state. -/
def demoState : SysState := ⟨false, demoSettings, demoNav, false, false, false⟩

/-- An initialized, immersive system state. -/
def demoImmersive : SysState :=
  ⟨true, demoSettings, ⟨"expo-42", .PRESENTATION, true, "", 1⟩,
   true, true, true⟩

/-- Environment in which all three collaborators construct. -/
def demoEnvOk : CollabEnv := ⟨true, true, true⟩

/-- Environment in which the render collaborator fails to construct. -/
def demoEnvBad : CollabEnv := ⟨false, true, true⟩

/-- State reached by `NavigateToProject "expo-42"` followed by
`EnterImmersiveMode "expo-42"` (the scenario of spec section 8). -/
def scenarioState (s : SysState) : SysState :=
  (EnterImmersiveMode "expo-42" (NavigateToProject "expo-42" s).2).2

/-- Head of a character stream is not a digit (true also for the empty
stream). -/
def headNotDig (r : List Char) : Bool :=
  match r with
  | [] => true
  | c :: _ => !isDig c

set_option maxRecDepth 200000 in
/-- The demo settings pass validation. -/
theorem demoSettings_valid : validateSettings demoSettings = true := by
  with_unfolding_all decide

/-! ## Navigation state machine theorems -/

/-- C3: `ExitImmersiveMode` is valid only when `isImmersive=true`; then it
sets `viewMode=PROJECT` and `isImmersive=false`; when `isImmersive=false`
the call is rejected with an interaction error and the state is
unchanged. -/
theorem exitImmersiveMode_spec (s : SysState) :
    (s.navigationState.isImmersive = true →
      (ExitImmersiveMode s).1 = .NONE ∧
      (ExitImmersiveMode s).2.navigationState.viewMode = .PROJECT ∧
      (ExitImmersiveMode s).2.navigationState.isImmersive = false) ∧
    (s.navigationState.isImmersive = false →
      ExitImmersiveMode s = (.INTERACTION_ERROR, s)) := by
  constructor <;> intro h <;> simp [ExitImmersiveMode, h]

/-- Witness for C3 at the concrete immersive and non-immersive states. -/
theorem exitImmersiveMode_spec_witness :
    ((ExitImmersiveMode demoImmersive).1 = .NONE ∧
     (ExitImmersiveMode demoImmersive).2.navigationState.viewMode =
       .PROJECT ∧
     (ExitImmersiveMode demoImmersive).2.navigationState.isImmersive =
       false) ∧
    ExitImmersiveMode demoState = (.INTERACTION_ERROR, demoState) :=
  ⟨(exitImmersiveMode_spec demoImmersive).1 rfl,
   (exitImmersiveMode_spec demoState).2 rfl⟩

/-- C4: `EnterImmersiveMode` succeeds whenever a non-empty project id is
supplied or a non-empty `currentProject` is selected, setting
`isImmersive=true` and `viewMode=PRESENTATION`; with neither available it
is rejected with an interaction error and the state is unchanged. -/
theorem enterImmersiveMode_spec (pid : String) (s : SysState) :
    ((pid ≠ "" ∨ s.navigationState.currentProject ≠ "") →
      (EnterImmersiveMode pid s).1 = .NONE ∧
      (EnterImmersiveMode pid s).2.navigationState.isImmersive = true ∧
      (EnterImmersiveMode pid s).2.navigationState.viewMode =
        .PRESENTATION) ∧
    (pid = "" ∧ s.navigationState.currentProject = "" →
      EnterImmersiveMode pid s = (.INTERACTION_ERROR, s)) := by
  constructor
  · intro h
    rcases eq_or_ne pid "" with hp | hp
    · subst hp
      have hc : s.navigationState.currentProject ≠ "" := by tauto
      simp [EnterImmersiveMode, hc]
    · simp [EnterImmersiveMode, hp]
  · rintro ⟨hp, hc⟩
    subst hp
    simp [EnterImmersiveMode, hc]

/-- Witness for C4 at a concrete supplied id and at the empty state. -/
theorem enterImmersiveMode_spec_witness :
    ((EnterImmersiveMode "expo-42" demoState).1 = .NONE ∧
     (EnterImmersiveMode "expo-42" demoState).2.navigationState.isImmersive
       = true ∧
     (EnterImmersiveMode "expo-42" demoState).2.navigationState.viewMode =
       .PRESENTATION) ∧
    EnterImmersiveMode "" demoState = (.INTERACTION_ERROR, demoState) :=
  ⟨(enterImmersiveMode_spec "expo-42" demoState).1 (by simp),
   (enterImmersiveMode_spec "" demoState).2 ⟨rfl, rfl⟩⟩

/-- C5: `SetViewMode` succeeds exactly when the state is non-immersive or
the requested mode is `PRESENTATION` (rejecting with an interaction error
otherwise), and the scenario `NavigateToProject "expo-42"` followed by
`EnterImmersiveMode "expo-42"` yields `viewMode=PRESENTATION`,
`isImmersive=true`, after which `SetViewMode MAP` is rejected. -/
theorem setViewMode_spec :
    (∀ (m : ViewMode) (s : SysState),
      ((SetViewMode m s).1 = .NONE ↔
        (s.navigationState.isImmersive = false ∨ m = .PRESENTATION)) ∧
      (s.navigationState.isImmersive = true → m ≠ .PRESENTATION →
        SetViewMode m s = (.INTERACTION_ERROR, s))) ∧
    (∀ s : SysState,
      (scenarioState s).navigationState.viewMode = .PRESENTATION ∧
      (scenarioState s).navigationState.isImmersive = true ∧
      (SetViewMode .MAP (scenarioState s)).1 = .INTERACTION_ERROR) := by
  constructor
  · intro m s
    constructor
    · cases him : s.navigationState.isImmersive <;> cases m <;>
        simp [SetViewMode, him]
    · intro him hm
      simp [SetViewMode, him, hm]
  · intro s
    simp [scenarioState, NavigateToProject, EnterImmersiveMode, SetViewMode]

/-- Witness for C5 at the concrete immersive state and mode `MAP`. -/
theorem setViewMode_spec_witness :
    SetViewMode .MAP demoImmersive = (.INTERACTION_ERROR, demoImmersive) :=
  (setViewMode_spec.1 .MAP demoImmersive).2 rfl (by simp)

/-! ## Orchestrator theorems -/

/-- C6: `Shutdown` is idempotent: a second call produces the same end state
as one call and reports no error, and after any call the system is
uninitialized. -/
theorem shutdown_idempotent (s : SysState) :
    Shutdown (Shutdown s).2 = Shutdown s ∧
    (Shutdown (Shutdown s).2).1 = .NONE ∧
    IsInitialized (Shutdown s).2 = false :=
  ⟨rfl, rfl, rfl⟩

/-- C7: from an uninitialized state, `Initialize` succeeds exactly when the
settings validate and every collaborator constructs, installing the
settings and becoming initialized; if any collaborator construction fails
it reports an initialization failure and leaves the whole state
unchanged. -/
theorem initialize_all_or_nothing (env : CollabEnv)
    (settings : DomeProjectionSettings) (s : SysState)
    (hun : s.initialized = false) :
    ((validateSettings settings = true ∧ env.renderOk = true ∧
      env.hostOk = true ∧ env.inputOk = true) →
      (Initialize env settings s).1 = .NONE ∧
      IsInitialized (Initialize env settings s).2 = true ∧
      GetProjectionSettings (Initialize env settings s).2 = settings) ∧
    ((env.renderOk = false ∨ env.hostOk = false ∨ env.inputOk = false) →
      Initialize env settings s = (.INITIALIZATION_FAILED, s)) := by
  constructor
  · rintro ⟨hval, h1, h2, h3⟩
    simp [Initialize, hun, hval, h1, h2, h3, IsInitialized,
      GetProjectionSettings]
  · intro h
    cases hval : validateSettings settings
    · simp [Initialize, hun, hval]
    · rcases h with h | h | h <;> simp [Initialize, hun, hval, h]

/-- Witness for C7 on the demo settings, in a fully-constructing
environment and in one whose render collaborator fails. -/
theorem initialize_all_or_nothing_witness :
    ((Initialize demoEnvOk demoSettings demoState).1 = .NONE ∧
     IsInitialized (Initialize demoEnvOk demoSettings demoState).2 = true ∧
     GetProjectionSettings (Initialize demoEnvOk demoSettings demoState).2
       = demoSettings) ∧
    Initialize demoEnvBad demoSettings demoState =
      (.INITIALIZATION_FAILED, demoState) :=
  ⟨(initialize_all_or_nothing demoEnvOk demoSettings demoState rfl).1
     ⟨demoSettings_valid, rfl, rfl, rfl⟩,
   (initialize_all_or_nothing demoEnvBad demoSettings demoState rfl).2
     (Or.inl rfl)⟩

/-- C8: `SetProjectionSettings` validates exactly non-empty channels,
unique channel ids, the numeric ranges of the data model and full angular
coverage (as a pure boolean function of the argument), and replaces the
active settings atomically only on success: on validation failure the
previously active settings are unchanged. -/
theorem setProjectionSettings_atomic (settings : DomeProjectionSettings)
    (s : SysState) :
    (validateSettings settings =
      (!settings.channels.isEmpty &&
       idsUnique (settings.channels.map (fun c => c.id)) &&
       rangesValid settings && coverageOk settings)) ∧
    (validateSettings settings = true →
      SetProjectionSettings settings s =
        (.NONE, { s with projectionSettings := settings })) ∧
    (validateSettings settings = false →
      (SetProjectionSettings settings s).1 = .INVALID_METADATA ∧
      GetProjectionSettings (SetProjectionSettings settings s).2 =
        GetProjectionSettings s) := by
  refine ⟨rfl, ?_, ?_⟩ <;> intro h <;>
    simp [SetProjectionSettings, h, GetProjectionSettings]

/-- Witness for C8 on the demo settings (valid) and the channel-free
settings (invalid). -/
theorem setProjectionSettings_atomic_witness :
    SetProjectionSettings demoSettings demoState =
      (.NONE, { demoState with projectionSettings := demoSettings }) ∧
    ((SetProjectionSettings badSettings demoState).1 = .INVALID_METADATA ∧
     GetProjectionSettings (SetProjectionSettings badSettings demoState).2
       = GetProjectionSettings demoState) :=
  ⟨(setProjectionSettings_atomic demoSettings demoState).2.1 demoSettings_valid,
   (setProjectionSettings_atomic badSettings demoState).2.2 rfl⟩

/-! ## Coordinate transform lemmas -/

/-- Lower bound of angle normalization. -/
theorem normAz_nonneg (a : ℚ) : 0 ≤ normAz a := by
  have h1 : (⌊a / 360⌋ : ℚ) ≤ a / 360 := Int.floor_le _
  rw [le_div_iff₀ (by norm_num : (0:ℚ) < 360)] at h1
  unfold normAz
  linarith

/-- Upper bound of angle normalization. -/
theorem normAz_lt (a : ℚ) : normAz a < 360 := by
  have h1 : a / 360 < ⌊a / 360⌋ + 1 := Int.lt_floor_add_one _
  rw [div_lt_iff₀ (by norm_num : (0:ℚ) < 360)] at h1
  unfold normAz
  linarith

/-- Angle normalization is the identity inside [0, 360). -/
theorem normAz_eq_self (a : ℚ) (h0 : 0 ≤ a) (h1 : a < 360) :
    normAz a = a := by
  have hf : ⌊a / 360⌋ = 0 := by
    rw [Int.floor_eq_zero_iff]
    constructor
    · positivity
    · rw [div_lt_one (by norm_num : (0:ℚ) < 360)]; linarith
  unfold normAz
  rw [hf]
  ring

/-- Angle normalization adds a full turn to angles in [-360, 0). -/
theorem normAz_neg (a : ℚ) (h0 : -360 ≤ a) (h1 : a < 0) :
    normAz a = a + 360 := by
  have hf : ⌊a / 360⌋ = -1 := by
    rw [Int.floor_eq_iff]
    push_cast
    constructor
    · rw [le_div_iff₀ (by norm_num : (0:ℚ) < 360)]
      linarith
    · have hneg : a / 360 < 0 :=
        div_neg_of_neg_of_pos h1 (by norm_num)
      linarith
  unfold normAz
  rw [hf]
  push_cast
  ring

/-- Clamping is the identity inside the interval. -/
theorem clampQ_eq_self (lo hi x : ℚ) (h0 : lo ≤ x) (h1 : x ≤ hi) :
    clampQ lo hi x = x := by
  unfold clampQ
  rw [min_eq_right h1, max_eq_right h0]

/-- Every constructed coordinate satisfies the data-model invariant. -/
theorem mkDomeCoordinates_valid (a e d : ℚ) :
    domeValid (mkDomeCoordinates a e d) := by
  unfold mkDomeCoordinates domeValid clampQ
  refine ⟨normAz_nonneg a, normAz_lt a, le_max_left _ _, ?_, le_max_left _ _, ?_⟩
  · exact max_le (by norm_num) (min_le_left _ _)
  · exact max_le (by norm_num) (min_le_left _ _)

/-- Constructing from the fields of a valid coordinate gives it back. -/
theorem mkDomeCoordinates_of_valid (c : DomeCoordinates)
    (h : domeValid c) :
    mkDomeCoordinates c.azimuth c.elevation c.distance = c := by
  obtain ⟨h1, h2, h3, h4, h5, h6⟩ := h
  unfold mkDomeCoordinates
  cases c with
  | mk az el dist =>
    simp only [DomeCoordinates.mk.injEq]
    exact ⟨normAz_eq_self az h1 h2, clampQ_eq_self _ _ _ h3 h4,
      clampQ_eq_self _ _ _ h5 h6⟩

/-- C1: for latitude in [-90, 90] and longitude in [-180, 180],
`DomeToGeographic` after `GeographicToDome` returns the input within 1e-6:
the latitude always, the longitude up to a full 360-degree turn, except at
the poles where only the latitude (elevation) component is required to
round-trip. -/
theorem geographic_dome_roundtrip (lat lng : ℚ) (c : DomeCoordinates)
    (h1 : -90 ≤ lat) (h2 : lat ≤ 90) (h3 : -180 ≤ lng) (h4 : lng ≤ 180)
    (hok : GeographicToDome (.fin lat) (.fin lng) = .ok c) :
    |(DomeToGeographic c).1 - lat| ≤ 1 / 1000000 ∧
    (lat ≠ 90 → lat ≠ -90 →
      |(DomeToGeographic c).2 - lng| ≤ 1 / 1000000 ∨
      |(DomeToGeographic c).2 - lng - 360| ≤ 1 / 1000000 ∨
      |(DomeToGeographic c).2 - lng + 360| ≤ 1 / 1000000) := by
  have hv : geoValid (.fin lat) (.fin lng) = true := by
    simp [geoValid, DVal.isFinite, DVal.val, h1, h2, h3, h4]
  rw [GeographicToDome, if_pos hv] at hok
  have hc : c = mkDomeCoordinates
      (if lat = 90 ∨ lat = -90 then 0 else lng) lat 1 := by
    have := hok
    simp only [DVal.val, Except.ok.injEq] at this
    exact this.symm
  subst hc
  constructor
  · show |clampQ (-90) 90 lat - lat| ≤ 1 / 1000000
    rw [clampQ_eq_self _ _ _ h1 h2]
    simp
  · intro hp1 hp2
    have hneq : ¬(lat = 90 ∨ lat = -90) := by tauto
    rw [if_neg hneq]
    have hval : (DomeToGeographic (mkDomeCoordinates lng lat 1)).2 =
        if normAz lng ≤ 180 then normAz lng else normAz lng - 360 := rfl
    rw [hval]
    rcases le_or_lt 0 lng with hs | hs
    · left
      rw [normAz_eq_self lng hs (by linarith), if_pos h4]
      simp
    · rw [normAz_neg lng (by linarith) hs]
      rcases le_or_lt (lng + 360) 180 with hb | hb
      · right; left
        rw [if_pos hb]
        have hz : lng + 360 - lng - 360 = 0 := by ring
        rw [hz]
        norm_num
      · left
        rw [if_neg (not_le.mpr hb)]
        have hz : lng + 360 - 360 - lng = 0 := by ring
        rw [hz]
        norm_num

/-- Witness for C1 at latitude 10, longitude 20. -/
theorem geographic_dome_roundtrip_witness :
    |(DomeToGeographic ⟨20, 10, 1⟩).1 - 10| ≤ 1 / 1000000 ∧
    ((10 : ℚ) ≠ 90 → (10 : ℚ) ≠ -90 →
      |(DomeToGeographic ⟨20, 10, 1⟩).2 - 20| ≤ 1 / 1000000 ∨
      |(DomeToGeographic ⟨20, 10, 1⟩).2 - 20 - 360| ≤ 1 / 1000000 ∨
      |(DomeToGeographic ⟨20, 10, 1⟩).2 - 20 + 360| ≤ 1 / 1000000) :=
  geographic_dome_roundtrip 10 20 ⟨20, 10, 1⟩ (by norm_num) (by norm_num)
    (by norm_num) (by norm_num) (by with_unfolding_all rfl)

/-- C2: `GeographicToDome` fails with `INVALID_COORDINATES` whenever the
latitude is outside [-90, 90], the longitude is outside [-180, 180], or
either input is NaN or infinite; it returns no coordinate value there. -/
theorem geographicToDome_invalid (lat lng : DVal)
    (h : lat.isFinite = false ∨ lng.isFinite = false ∨
         lat.val < -90 ∨ 90 < lat.val ∨ lng.val < -180 ∨ 180 < lng.val) :
    GeographicToDome lat lng = .error .INVALID_COORDINATES := by
  have hv : geoValid lat lng = false := by
    unfold geoValid
    rcases h with h | h | h | h | h | h
    · simp [h]
    · simp [h]
    · simp [not_le.mpr h]
    · simp [not_le.mpr h]
    · simp [not_le.mpr h]
    · simp [not_le.mpr h]
  rw [GeographicToDome, if_neg (by simp [hv])]

/-- Witness for C2 at out-of-range latitude 100 and at a NaN input. -/
theorem geographicToDome_invalid_witness :
    GeographicToDome (.fin 100) (.fin 0) = .error .INVALID_COORDINATES ∧
    GeographicToDome .nan (.fin 0) = .error .INVALID_COORDINATES :=
  ⟨geographicToDome_invalid (.fin 100) (.fin 0)
     (Or.inr (Or.inr (Or.inr (Or.inl (by norm_num [DVal.val]))))),
   geographicToDome_invalid .nan (.fin 0) (Or.inl rfl)⟩

/-- C9: every `DomeCoordinates` value produced by a public operation
satisfies the data-model invariant: the constructor normalizes the azimuth
into [0,360) and clamps elevation to [-90,90] and distance to [0,1], and
both `GeographicToDome` and `DomeCoordinatesFromJson` only yield values of
that shape. -/
theorem domeCoordinates_invariant :
    (∀ a e d : ℚ, domeValid (mkDomeCoordinates a e d)) ∧
    (∀ (lat lng : DVal) (c : DomeCoordinates),
      GeographicToDome lat lng = .ok c → domeValid c) ∧
    (∀ (s : String) (c : DomeCoordinates),
      DomeCoordinatesFromJson s = .ok c → domeValid c) := by
  refine ⟨mkDomeCoordinates_valid, ?_, ?_⟩
  · intro lat lng c h
    unfold GeographicToDome at h
    split at h
    · simp only [Except.ok.injEq] at h
      rw [← h]
      exact mkDomeCoordinates_valid _ _ _
    · exact absurd h (by simp)
  · intro s c h
    unfold DomeCoordinatesFromJson at h
    split at h
    next a e d heq =>
      simp only [Except.ok.injEq] at h
      rw [← h]
      exact mkDomeCoordinates_valid _ _ _
    next => exact absurd h (by simp)

/-- Witness for C9 on an out-of-range constructor input and on a concrete
`GeographicToDome` output. -/
theorem domeCoordinates_invariant_witness :
    domeValid (mkDomeCoordinates 400 100 2) ∧
    domeValid ⟨20, 10, 1⟩ :=
  ⟨domeCoordinates_invariant.1 400 100 2,
   domeCoordinates_invariant.2.1 (.fin 10) (.fin 20) ⟨20, 10, 1⟩
     (by with_unfolding_all rfl)⟩

/-! ## Serialization round-trip lemmas -/

/-- Stripping a literal prefix off itself followed by anything succeeds. -/
theorem stripLit_append (lit rest : List Char) :
    stripLit lit (lit ++ rest) = some rest := by
  induction lit with
  | nil => rfl
  | cons c cs ih => simp [stripLit, ih]

/-- Stripping a literal off exactly itself leaves nothing. -/
theorem stripLit_self (lit : List Char) : stripLit lit lit = some [] := by
  have h := stripLit_append lit []
  rwa [List.append_nil] at h

/-- Digit characters decode to their digit. -/
theorem charVal_digChar : ∀ d : ℕ, d < 10 → charVal (digChar d) = d := by
  decide

/-- Digit characters are digits. -/
theorem isDig_digChar : ∀ d : ℕ, d < 10 → isDig (digChar d) = true := by
  decide

/-- Every character of a rendered natural number is a digit. -/
theorem natToChars_all_dig (n : ℕ) :
    ∀ c ∈ natToChars n, isDig c = true := by
  unfold natToChars
  split
  · intro c hc
    simp only [List.mem_singleton] at hc
    subst hc
    decide
  · intro c hc
    rw [List.mem_reverse] at hc
    obtain ⟨d, hd, rfl⟩ := List.mem_map.mp hc
    exact isDig_digChar d (Nat.digits_lt_base (by norm_num) hd)

/-- A rendered natural number is never the empty string. -/
theorem natToChars_ne_nil (n : ℕ) : natToChars n ≠ [] := by
  unfold natToChars
  split
  · simp
  · next h =>
    simp only [ne_eq, List.reverse_eq_nil_iff, List.map_eq_nil_iff]
    exact Nat.digits_ne_nil_iff_ne_zero.mpr h

/-- Decoding a rendered natural number gives it back. -/
theorem charsToNat_natToChars (n : ℕ) : charsToNat (natToChars n) = n := by
  unfold natToChars charsToNat
  split
  · next h => subst h; decide
  · rw [List.map_reverse, List.reverse_reverse, List.map_map]
    have hmap : List.map (charVal ∘ digChar) (Nat.digits 10 n) =
        List.map id (Nat.digits 10 n) :=
      List.map_congr_left
        (fun d hd => charVal_digChar d (Nat.digits_lt_base (by norm_num) hd))
    rw [hmap, List.map_id]
    exact Nat.ofDigits_digits 10 n

/-- Taking a predicate-true block followed by a predicate-false head splits
the list exactly at the boundary. -/
theorem takeWhile_append_end (p : Char → Bool) (l r : List Char)
    (hl : ∀ c ∈ l, p c = true)
    (hr : ∀ x, r.head? = some x → p x = false) :
    (l ++ r).takeWhile p = l ∧ (l ++ r).dropWhile p = r := by
  induction l with
  | nil =>
    simp only [List.nil_append]
    cases r with
    | nil => simp
    | cons x t =>
      have hx := hr x rfl
      simp [List.takeWhile_cons, List.dropWhile_cons, hx]
  | cons c cs ih =>
    have hc := hl c (List.mem_cons_self c cs)
    have ihh := ih (fun a ha => hl a (List.mem_cons_of_mem c ha))
    simp [List.takeWhile_cons, List.dropWhile_cons, hc, ihh.1, ihh.2]

/-- Unfolding of the `headNotDig` guard. -/
theorem headNotDig_spec (r : List Char) (h : headNotDig r = true) :
    ∀ x, r.head? = some x → isDig x = false := by
  intro x hx
  cases r with
  | nil => simp at hx
  | cons c t =>
    simp only [List.head?_cons, Option.some.injEq] at hx
    subst hx
    simpa [headNotDig] using h

/-- Reading back a rendered natural number consumes exactly its digits. -/
theorem readNat_round (n : ℕ) (rest : List Char)
    (h : headNotDig rest = true) :
    readNat (natToChars n ++ rest) = some (n, rest) := by
  obtain ⟨ht, hd⟩ := takeWhile_append_end isDig (natToChars n) rest
    (natToChars_all_dig n) (headNotDig_spec rest h)
  have hne : (natToChars n).isEmpty = false := by
    cases hh : natToChars n with
    | nil => exact absurd hh (natToChars_ne_nil n)
    | cons a t => rfl
  simp only [readNat, ht, hd, hne, Bool.false_eq_true, if_false,
    charsToNat_natToChars]

/-- The first character of a rendered natural number is a digit, hence not
a minus sign. -/
theorem splitSign_natToChars (n : ℕ) (rest : List Char) :
    splitSign (natToChars n ++ rest) = (false, natToChars n ++ rest) := by
  cases hh : natToChars n with
  | nil => exact absurd hh (natToChars_ne_nil n)
  | cons a t =>
    have ha : isDig a = true := by
      have := natToChars_all_dig n a
      rw [hh] at this
      exact this (List.mem_cons_self a t)
    have hne : a ≠ '-' := by
      intro hc
      rw [hc] at ha
      exact absurd ha (by decide)
    simp [splitSign, hne]

/-- Reading back a rendered integer consumes exactly its characters. -/
theorem readInt_round (i : ℤ) (rest : List Char)
    (h : headNotDig rest = true) :
    readInt (intToChars i ++ rest) = some (i, rest) := by
  unfold intToChars
  rcases lt_or_ge i 0 with hi | hi
  · rw [if_pos hi]
    have hs : (['-'] ++ natToChars i.natAbs) ++ rest =
        '-' :: (natToChars i.natAbs ++ rest) := rfl
    rw [hs]
    have hsp : splitSign ('-' :: (natToChars i.natAbs ++ rest)) =
        (true, natToChars i.natAbs ++ rest) := rfl
    simp [readInt, hsp, readNat_round i.natAbs rest h, abs_of_neg hi]
  · rw [if_neg (not_lt.mpr hi)]
    rw [List.nil_append]
    simp [readInt, splitSign_natToChars, readNat_round i.natAbs rest h,
      abs_of_nonneg hi]

/-- Reading back a rendered rational consumes exactly its characters. -/
theorem readRat_round (q : ℚ) (rest : List Char)
    (h : headNotDig rest = true) :
    readRat (ratToChars q ++ rest) = some (q, rest) := by
  unfold ratToChars
  have hs : (intToChars q.num ++ '/' :: natToChars q.den) ++ rest =
      intToChars q.num ++ (['/'] ++ (natToChars q.den ++ rest)) := by
    simp
  rw [hs]
  have hhead : headNotDig (['/'] ++ (natToChars q.den ++ rest)) = true := rfl
  simp only [readRat, readInt_round q.num _ hhead, stripLit_append,
    readNat_round q.den rest h]
  rw [if_neg q.den_nz, Rat.num_div_den]

/-- Reading back a rendered boolean consumes exactly its characters. -/
theorem readBool_round (b : Bool) (rest : List Char) :
    readBool (boolChars b ++ rest) = some (b, rest) := by
  cases b
  · have h1 : stripLit litTrue (litFalse ++ rest) = none := rfl
    show readBool (litFalse ++ rest) = some (false, rest)
    simp only [readBool, h1, stripLit_append]
  · show readBool (litTrue ++ rest) = some (true, rest)
    simp only [readBool, stripLit_append]

/-- Reading back a rendered quote-free string stops at the closing
quote. -/
theorem readStr_round (p : String) (rest : List Char)
    (hp : ∀ c ∈ p.data, notQuote c = true)
    (hr : ∀ x, rest.head? = some x → notQuote x = false) :
    readStr (p.data ++ rest) = (p, rest) := by
  obtain ⟨ht, hd⟩ := takeWhile_append_end notQuote p.data rest hp hr
  simp only [readStr, ht, hd]

/-- The elevation literal does not start with a digit. -/
theorem headNotDig_litElev (x : List Char) :
    headNotDig (litElev ++ x) = true := rfl

/-- The distance literal does not start with a digit. -/
theorem headNotDig_litDist (x : List Char) :
    headNotDig (litDist ++ x) = true := rfl

/-- The closing-brace literal does not start with a digit. -/
theorem headNotDig_litClose : headNotDig litClose = true := rfl

/-- The height literal does not start with a digit. -/
theorem headNotDig_litH (x : List Char) :
    headNotDig (litH ++ x) = true := rfl

/-- The field-of-view literal does not start with a digit. -/
theorem headNotDig_litFov (x : List Char) :
    headNotDig (litFov ++ x) = true := rfl

/-- The projection literal does not start with a digit. -/
theorem headNotDig_litProj (x : List Char) :
    headNotDig (litProj ++ x) = true := rfl

/-- The literal after the projection string starts with a quote. -/
theorem litOpt_head (x : List Char) :
    ∀ y, (litOpt ++ x).head? = some y → notQuote y = false := by
  intro y hy
  have hq : (litOpt ++ x).head? = some '"' := rfl
  rw [hq, Option.some.injEq] at hy
  subst hy
  decide

/-- Reading the projection string stops exactly at the following
literal. -/
theorem readStr_json (p : String)
    (hp : ∀ c ∈ p.data, notQuote c = true) (x : List Char) :
    readStr (p.data ++ (litOpt ++ x)) = (p, litOpt ++ x) :=
  readStr_round p (litOpt ++ x) hp (litOpt_head x)

/-- Parsing the rendered coordinate stream recovers the raw fields and
consumes the whole stream. -/
theorem parseCoord_json (c : DomeCoordinates) :
    parseCoord (jsonCoordChars c) =
      some ((c.azimuth, c.elevation, c.distance), []) := by
  have e1 : jsonCoordChars c =
      litAz ++ (ratToChars c.azimuth ++ (litElev ++ (ratToChars c.elevation
        ++ (litDist ++ (ratToChars c.distance ++ litClose))))) := by
    simp [jsonCoordChars]
  rw [e1]
  simp only [parseCoord, stripLit_append, readRat_round,
    headNotDig_litElev, headNotDig_litDist, headNotDig_litClose,
    stripLit_self]

/-- Parsing the rendered metadata stream recovers the value and consumes
the whole stream. -/
theorem parseMeta_json (m : EquirectangularMetadata) (hm : metaValid m) :
    parseMeta (jsonMetaChars m) = some (m, []) := by
  have hproj : ∀ c ∈ m.projection.data, notQuote c = true := by
    rcases hm.2.2.2.2 with h | h | h <;> rw [h] <;> decide
  have e1 : jsonMetaChars m =
      litW ++ (intToChars m.width ++ (litH ++ (intToChars m.height ++
        (litFov ++ (ratToChars m.fieldOfView ++ (litProj ++
          (m.projection.data ++ (litOpt ++ (boolChars m.optimizedForDome
            ++ litClose))))))))) := by
    simp [jsonMetaChars]
  rw [e1]
  simp only [parseMeta, stripLit_append, readInt_round, readRat_round,
    headNotDig_litH, headNotDig_litFov, headNotDig_litProj,
    readStr_json m.projection hproj, readBool_round, stripLit_self]

/-- C10: serialization round-trips: `DomeCoordinatesFromJson` inverts
`DomeCoordinatesToJson` on every valid coordinate and
`EquirectangularMetadataFromJson` inverts `EquirectangularMetadataToJson`
on every valid metadata value, while a malformed input string fails with
`INVALID_COORDINATES` / `INVALID_METADATA` rather than producing a
partially parsed value. -/
theorem json_roundtrip :
    (∀ c : DomeCoordinates, domeValid c →
      DomeCoordinatesFromJson (DomeCoordinatesToJson c) = .ok c) ∧
    (∀ m : EquirectangularMetadata, metaValid m →
      EquirectangularMetadataFromJson (EquirectangularMetadataToJson m) =
        .ok m) ∧
    DomeCoordinatesFromJson "garbage" = .error .INVALID_COORDINATES ∧
    EquirectangularMetadataFromJson "garbage" = .error .INVALID_METADATA := by
  refine ⟨?_, ?_, rfl, rfl⟩
  · intro c hc
    unfold DomeCoordinatesToJson DomeCoordinatesFromJson
    rw [show (String.mk (jsonCoordChars c)).data = jsonCoordChars c
      from rfl]
    rw [parseCoord_json]
    exact congrArg Except.ok (mkDomeCoordinates_of_valid c hc)
  · intro m hm
    unfold EquirectangularMetadataToJson EquirectangularMetadataFromJson
    rw [show (String.mk (jsonMetaChars m)).data = jsonMetaChars m
      from rfl]
    rw [parseMeta_json m hm]

/-- Witness for C10 at a concrete coordinate and metadata value. -/
theorem json_roundtrip_witness :
    DomeCoordinatesFromJson (DomeCoordinatesToJson ⟨20, 10, 1⟩) =
      .ok ⟨20, 10, 1⟩ ∧
    EquirectangularMetadataFromJson (EquirectangularMetadataToJson
      ⟨1920, 1080, 180, "equirectangular", true⟩) =
      .ok ⟨1920, 1080, 180, "equirectangular", true⟩ :=
  ⟨json_roundtrip.1 ⟨20, 10, 1⟩ (by with_unfolding_all decide),
   json_roundtrip.2.1 ⟨1920, 1080, 180, "equirectangular", true⟩
     (by with_unfolding_all decide)⟩

end DomeProjection
